import Mathlib

/-
Verification of the two utility modules of this repository:

* `docs/scripts/print_release_issues.py` — paginates a JIRA search endpoint,
  groups the returned issues by issue type, and renders release notes in one
  of three textual formats.  Embedded below in namespace `ReleaseIssues`.

* `synapseclient/api/annotations.py` — serializes an annotation record and
  issues one PUT request.  Embedded below in namespace `AnnotationsApi`.

HTTP traffic is embedded by passing the script the finite list of responses
the server would give, one response per request, and by returning alongside
the script's result the list of request URLs actually issued.  A response
body is carried both as raw text and as the result of `json.loads` on that
text (`none` when the text is not valid JSON and `json.loads` would raise).
-/

namespace ReleaseIssues

/-- One JIRA issue as used by the script: `issue["key"]`,
`issue["fields"]["issuetype"]["name"]` and `issue["fields"]["summary"]`. -/
structure Issue where
  key : String
  issuetype : String
  summary : String
deriving DecidableEq

/-- The parsed JSON body of a search response, `response_json["issues"]`. -/
structure PageBody where
  issues : List Issue
deriving DecidableEq

/-- One HTTP response from the search endpoint.  `text` is the raw body
(`response.text` / `response.read()`), and `json` is the result of
`json.loads` on that body — `none` models the `json.JSONDecodeError` raised
on a body that is not valid JSON. -/
structure HttpResponse where
  status_code : Nat
  text : String
  json : Option PageBody
deriving DecidableEq

/-- The exceptions `_get_issues` can raise.  `noMoreResponses` is an artifact
of embedding the server as a finite response list: it marks runs where the
loop would still be requesting pages beyond the ones supplied. -/
inductive FetchError where
  | jsonDecodeError
  | runtimeError (msg : String)
  | noMoreResponses
deriving DecidableEq

/-- The message text of each raised exception.  For `jsonDecodeError` this is
the message CPython's `json.loads` produces on a body that does not start
with a JSON value, e.g. `json.loads("Not Found")`. -/
def FetchError.message : FetchError → String
  | FetchError.jsonDecodeError => "Expecting value: line 1 column 1 (char 0)"
  | FetchError.runtimeError msg => msg
  | FetchError.noMoreResponses => "ran out of scripted responses"

/-- `JQL_ISSUE_URL.format(project=..., version=..., start_at=...)`. -/
def JQL_ISSUE_URL (project version : String) (start_at : Nat) : String :=
  "https://sagebionetworks.jira.com/rest/api/2/search?jql=project=" ++ project
    ++ "%20AND%20fixVersion=" ++ version
    ++ "%20ORDER%20BY%20created%20ASC&startAt=" ++ toString start_at

/-- `ISSUE_URL_PREFIX.format(key=...)`, the browse URL derived from a key. -/
def issue_url_of (key : String) : String :=
  "https://sagebionetworks.jira.com/browse/" ++ key

/-- The literal `sample_string_bytes = "".encode("ascii")` of the source:
the credential placeholder is the empty string. -/
def sample_string : String := ""

/-- The message of the `RuntimeError` raised when the credential is empty. -/
def auth_error_message : String :=
  "As of May 2024 you must authenticate in order to query jira. See the comments in the script for more information."

/-- The message of the `RuntimeError` raised on a non-200 response. -/
def jira_fail_message (status_code : Nat) (text : String) : String :=
  "Failed to get issues from JIRA: " ++ toString status_code ++ " " ++ text

/-- `issues_by_type.setdefault(issue_type, []).append(issue)` on a Python
dict embedded as an insertion-ordered association list with unique keys. -/
def setdefault_append (m : List (String × List Issue)) (k : String) (i : Issue) :
    List (String × List Issue) :=
  match m with
  | [] => [(k, [i])]
  | (k', vs) :: rest =>
      if k' = k then (k', vs ++ [i]) :: rest
      else (k', vs) :: setdefault_append rest k i

/-- The body of the `for issue in issues` loop. -/
def add_issue (m : List (String × List Issue)) (issue : Issue) :
    List (String × List Issue) :=
  setdefault_append m issue.issuetype issue

/-- Boolean lexicographic comparison on character lists, by code point —
the order Python's `sorted` uses on strings. -/
def lexLe : List Char → List Char → Bool
  | [], _ => true
  | _ :: _, [] => false
  | a :: as, b :: bs => if a < b then true else if b < a then false else lexLe as bs

/-- The string order used by `sorted(issues_by_type)`. -/
def strLe (a b : String) : Prop := lexLe a.data b.data = true

instance : DecidableRel strLe :=
  fun a b => inferInstanceAs (Decidable (lexLe a.data b.data = true))

/-- Indexing a Python dict embedded as an association list:
`issues_by_type[t]`. -/
def lookup_type (t : String) : List (String × List Issue) → Option (List Issue)
  | [] => none
  | (k, vs) :: rest => if t = k then some vs else lookup_type t rest

/-- `issue_types = sorted(issues_by_type)` followed by rebuilding the
`OrderedDict` in sorted key order. -/
def sort_issues_by_type (m : List (String × List Issue)) :
    List (String × List Issue) :=
  (List.insertionSort strLe (m.map Prod.fst)).map
    (fun k => (k, (lookup_type k m).getD []))

end ReleaseIssues

namespace AnnotationsApi

/-- Modelled from the spec: the wire JSON values appearing in the PUT body —
the record's id and etag are JSON strings, and the converted annotations
mapping is a JSON object carried abstractly as a value of type `β`. -/
inductive JsonValue (β : Type) where
  | str (s : String)
  | obj (w : β)

/-- Modelled from the spec: the `Annotations` dataclass of
`synapseclient.models` (absent from the sources here) — a record with the
id, etag and annotations mapping filled in.  The annotations mapping is
carried abstractly as a value of type `α`; `dataclasses.asdict` on the
record yields its fields, so field access embeds `asdict(annotations)[...]`. -/
structure Annotations (α : Type) where
  id : String
  etag : String
  annotations : α

/-- `set_annotations(annotations, synapse_client, opentelemetry_context)`.
The pieces living outside these sources are parameters:
`_convert_to_annotations_list` (from `synapseclient.annotations`) is the
function `convert_to_annotations_list`, and the resolved client's `restPUT`
is the function `restPUT`, receiving the URI, the JSON body as its exact
key/value pairs, and the forwarded trace context, and producing the server's
parsed response. -/
def set_annotations {α β σ ρ : Type}
    (annotations : Annotations α)
    (convert_to_annotations_list : α → β)
    (restPUT : String → List (String × JsonValue β) → Option σ → ρ)
    (opentelemetry_context : Option σ) : ρ :=
  let annotations_dict_annotations := annotations.annotations
  let synapse_annotations := convert_to_annotations_list annotations_dict_annotations
  restPUT ("/entity/" ++ annotations.id ++ "/annotations2")
    [("id", JsonValue.str annotations.id),
     ("etag", JsonValue.str annotations.etag),
     ("annotations", JsonValue.obj synapse_annotations)]
    opentelemetry_context

end AnnotationsApi

namespace ReleaseIssues

/-- The `while True` loop of `_get_issues`, one recursive step per request.
The second component of the result is the list of URLs the loop actually
requested; the credential check (`if not sample_string_bytes: raise`) runs
at the top of each iteration, before `client.get`, and the body is parsed
with `json.loads` before the status code is inspected. -/
def get_issues_loop (token project version : String) (start_at : Nat)
    (issues_by_type : List (String × List Issue)) :
    List HttpResponse → Except FetchError (List (String × List Issue)) × List String
  | [] =>
      if token = "" then
        (Except.error (FetchError.runtimeError auth_error_message), [])
      else (Except.error FetchError.noMoreResponses, [])
  | resp :: rest =>
      if token = "" then
        (Except.error (FetchError.runtimeError auth_error_message), [])
      else
        let url := JQL_ISSUE_URL project version start_at
        match resp.json with
        | none => (Except.error FetchError.jsonDecodeError, [url])
        | some body =>
            if resp.status_code ≠ 200 then
              (Except.error
                (FetchError.runtimeError (jira_fail_message resp.status_code resp.text)),
                [url])
            else if body.issues.isEmpty then
              (Except.ok issues_by_type, [url])
            else
              let r := get_issues_loop token project version
                (start_at + body.issues.length)
                (body.issues.foldl add_issue issues_by_type) rest
              (r.fst, url :: r.snd)

/-- `_get_issues(project, version)`, with the credential string and the
server's response script as explicit inputs.  In the source the credential
is the literal `sample_string`; the script's comments instruct the user to
substitute a real `username:token` there.  Returns the ordered grouped
mapping (or the raised exception) together with the requested URLs. -/
def _get_issues (token project version : String) (pages : List HttpResponse) :
    Except FetchError (List (String × List Issue)) × List String :=
  let r := get_issues_loop token project version 0 [] pages
  (r.fst.map sort_issues_by_type, r.snd)

/-- The template string `RST_ISSUE_FORMAT` (Python escapes resolved). -/
def RST_ISSUE_FORMAT : String :=
  "-  [`\x7bkey\x7d <\x7burl\x7d>`__] -\n   \x7bsummary\x7d"

/-- The template string `GITHUB_ISSUE_FORMAT` (Python escapes resolved). -/
def GITHUB_ISSUE_FORMAT : String :=
  "-  \\[[\x7bkey\x7d](\x7burl\x7d)\\] - \x7bsummary\x7d"

/-- The template string `MARKDOWN_FORMAT` (Python escapes resolved). -/
def MARKDOWN_FORMAT : String :=
  "-  \\[[\x7bkey\x7d](\x7burl\x7d)\\] - \x7bsummary\x7d"

/-- The value `str.format` substitutes for one placeholder name. -/
def format_named (name key url summary : String) : String :=
  if name = "key" then key
  else if name = "url" then url
  else if name = "summary" then summary
  else ""

/-- One left-to-right pass of `template.format(key=..., url=..., summary=...)`
over the template's characters.  `none` is the plain-text state; `some acc`
is the state inside a placeholder whose name so far is `acc`.  The brace
characters are written by code point (123 and 125). -/
def py_format_aux (key url summary : String) :
    Option (List Char) → List Char → List Char
  | _, [] => []
  | none, c :: rest =>
      if c = Char.ofNat 123 then py_format_aux key url summary (some []) rest
      else c :: py_format_aux key url summary none rest
  | some acc, c :: rest =>
      if c = Char.ofNat 125 then
        (format_named (String.mk acc) key url summary).data
          ++ py_format_aux key url summary none rest
      else py_format_aux key url summary (some (acc ++ [c])) rest

/-- `template.format(key=..., url=..., summary=...)` for the placeholder-only
templates of this script. -/
def py_format (template key url summary : String) : String :=
  String.mk (py_format_aux key url summary none template.data)

/-- `issue_format.format(key=issue_key, url=issue_url, summary=issue_summary)`
for one issue, with `issue_url` the derived browse URL. -/
def issue_line (issue_format : String) (issue : Issue) : String :=
  py_format issue_format issue.key (issue_url_of issue.key) issue.summary

/-- `_pluralize_issue_type(issue_type, format_type)`. -/
def _pluralize_issue_type (issue_type : String) (format_type : String) : String :=
  if issue_type = "Bug" then
    let title := "Bug Fixes"
    if format_type = "md" then "### " ++ title else title
  else if issue_type = "Story" then
    let title := "Stories"
    if format_type = "md" then "### " ++ title else title
  else
    let title := issue_type ++ "s"
    if format_type = "md" then "### " ++ title else title

/-- `"-" * n`, the underline row printed beneath a heading. -/
def dash_row (n : Nat) : String := String.mk (List.replicate n '-')

/-- `print_issues(issues_by_type, issue_format, format_type)`, embedded as the
list of strings passed to `print` in order (each one is emitted followed by a
newline). -/
def print_issues (issues_by_type : List (String × List Issue))
    (issue_format : String) (format_type : String) : List String :=
  issues_by_type.flatMap fun g =>
    let issue_type_plural := _pluralize_issue_type g.fst format_type
    issue_type_plural ::
      ((if format_type ≠ "md" then [dash_row issue_type_plural.length] else [])
        ++ g.snd.map (issue_line issue_format)
        ++ [""])

/-- The text written to the output stream: each printed string followed by a
newline. -/
def rendered_output (printed : List String) : String :=
  printed.foldr (fun line acc => line ++ "\n" ++ acc) ""

/-- The pluralized title of an issue type, as the spec words it: "Bug" maps
to "Bug Fixes", "Story" to "Stories", anything else to the type plus "s". -/
def title_of (issue_type : String) : String :=
  if issue_type = "Bug" then "Bug Fixes"
  else if issue_type = "Story" then "Stories"
  else issue_type ++ "s"

/-- The grouped mapping as the spec describes it: one group per issue type
appearing in the input, groups ordered by type name ascending, each group
holding its issues in arrival order. -/
def grouped_spec (issues : List Issue) : List (String × List Issue) :=
  (List.insertionSort strLe (issues.map Issue.issuetype).dedup).map
    (fun t => (t, issues.filter (fun i => decide (i.issuetype = t))))

/-- A 200 response whose body parses to the given issue list. -/
def okPage (issues : List Issue) : HttpResponse :=
  { status_code := 200, text := "", json := some { issues := issues } }

/-- `sub` occurs as a contiguous substring of `s`. -/
def contains_str (s sub : String) : Prop := sub.data <:+: s.data

instance (s sub : String) : Decidable (contains_str s sub) :=
  inferInstanceAs (Decidable (sub.data <:+: s.data))

end ReleaseIssues

namespace ReleaseIssues

lemma lexLe_total : ∀ as bs : List Char, lexLe as bs = true ∨ lexLe bs as = true := by
  intro as
  induction as with
  | nil => intro bs; left; rfl
  | cons a as ih =>
      intro bs
      cases bs with
      | nil => right; rfl
      | cons b bs =>
          rcases lt_trichotomy a b with h | h | h
          · left; simp [lexLe, h]
          · subst h
            have hlt : ¬ a < a := lt_irrefl a
            rcases ih bs with h' | h'
            · left; simp [lexLe, hlt, h']
            · right; simp [lexLe, hlt, h']
          · right; simp [lexLe, h]

lemma lexLe_trans : ∀ as bs cs : List Char,
    lexLe as bs = true → lexLe bs cs = true → lexLe as cs = true := by
  intro as
  induction as with
  | nil => intro bs cs _ _; rfl
  | cons a as ih =>
      intro bs cs h1 h2
      cases bs with
      | nil => simp [lexLe] at h1
      | cons b bs =>
          cases cs with
          | nil => simp [lexLe] at h2
          | cons c cs =>
              rcases lt_trichotomy a b with hab | hab | hab
              · rcases lt_trichotomy b c with hbc | hbc | hbc
                · have : a < c := lt_trans hab hbc
                  simp [lexLe, this]
                · subst hbc; simp [lexLe, hab]
                · simp [lexLe, hbc, asymm hbc] at h2
              · subst hab
                simp only [lexLe, lt_irrefl, if_false] at h1
                rcases lt_trichotomy a c with hac | hac | hac
                · simp [lexLe, hac]
                · subst hac
                  simp only [lexLe, lt_irrefl, if_false] at h2 ⊢
                  exact ih bs cs h1 h2
                · simp [lexLe, hac, asymm hac] at h2
              · simp [lexLe, hab, asymm hab] at h1

lemma lexLe_antisymm : ∀ as bs : List Char,
    lexLe as bs = true → lexLe bs as = true → as = bs := by
  intro as
  induction as with
  | nil =>
      intro bs _ h2
      cases bs with
      | nil => rfl
      | cons b bs => simp [lexLe] at h2
  | cons a as ih =>
      intro bs h1 h2
      cases bs with
      | nil => simp [lexLe] at h1
      | cons b bs =>
          rcases lt_trichotomy a b with hab | hab | hab
          · simp [lexLe, hab, asymm hab] at h2
          · subst hab
            simp only [lexLe, lt_irrefl, if_false] at h1 h2
            rw [ih bs h1 h2]
          · simp [lexLe, hab, asymm hab] at h1

instance : IsTotal String strLe :=
  ⟨fun a b => lexLe_total a.data b.data⟩

instance : IsTrans String strLe :=
  ⟨fun a b c h1 h2 => lexLe_trans a.data b.data c.data h1 h2⟩

instance : IsAntisymm String strLe :=
  ⟨fun a b h1 h2 => String.ext (lexLe_antisymm a.data b.data h1 h2)⟩

end ReleaseIssues

namespace ReleaseIssues

lemma lookup_type_setdefault_append (m : List (String × List Issue))
    (k : String) (i : Issue) (t : String) :
    lookup_type t (setdefault_append m k i)
      = if t = k then some ((lookup_type t m).getD [] ++ [i])
        else lookup_type t m := by
  induction m with
  | nil =>
      by_cases h : t = k <;> simp [setdefault_append, lookup_type, h]
  | cons hd tl ih =>
      obtain ⟨k', vs⟩ := hd
      by_cases hk : k' = k
      · subst hk
        by_cases ht : t = k'
        · subst ht; simp [setdefault_append, lookup_type]
        · simp [setdefault_append, lookup_type, ht]
      · by_cases ht : t = k'
        · subst ht
          simp [setdefault_append, lookup_type, hk]
        · simp [setdefault_append, hk, lookup_type, ht, ih]

lemma map_fst_setdefault_append (m : List (String × List Issue))
    (k : String) (i : Issue) :
    (setdefault_append m k i).map Prod.fst
      = if k ∈ m.map Prod.fst then m.map Prod.fst
        else m.map Prod.fst ++ [k] := by
  induction m with
  | nil => simp [setdefault_append]
  | cons hd tl ih =>
      obtain ⟨k', vs⟩ := hd
      by_cases hk : k' = k
      · subst hk; simp [setdefault_append]
      · have hkk : ¬ k = k' := fun h => hk h.symm
        by_cases hmem : k ∈ tl.map Prod.fst <;>
          simp [setdefault_append, hk, hkk, hmem, ih]

lemma foldl_add_issue_lookup (js : List Issue) :
    ∀ (acc : List (String × List Issue)) (t : String),
    (lookup_type t (js.foldl add_issue acc)).getD []
      = (lookup_type t acc).getD []
          ++ js.filter (fun i => decide (i.issuetype = t)) := by
  induction js with
  | nil => intro acc t; simp
  | cons j js ih =>
      intro acc t
      simp only [List.foldl_cons, List.filter_cons]
      rw [ih]
      rw [add_issue, lookup_type_setdefault_append]
      by_cases h : t = j.issuetype
      · subst h; simp
      · have h' : ¬ j.issuetype = t := fun e => h e.symm
        simp [h, h']

lemma foldl_add_issue_mem_keys (js : List Issue) :
    ∀ (acc : List (String × List Issue)) (t : String),
    t ∈ (js.foldl add_issue acc).map Prod.fst
      ↔ t ∈ acc.map Prod.fst ∨ t ∈ js.map Issue.issuetype := by
  induction js with
  | nil => intro acc t; simp
  | cons j js ih =>
      intro acc t
      simp only [List.foldl_cons, List.map_cons, List.mem_cons]
      rw [ih]
      rw [add_issue, map_fst_setdefault_append]
      by_cases hmem : j.issuetype ∈ acc.map Prod.fst
      · simp only [hmem, if_true]
        constructor
        · rintro (h | h)
          · exact Or.inl h
          · exact Or.inr (Or.inr h)
        · rintro (h | h | h)
          · exact Or.inl h
          · exact Or.inl (h ▸ hmem)
          · exact Or.inr h
      · simp only [hmem, if_false, List.mem_append, List.mem_singleton]
        tauto

lemma foldl_add_issue_nodup (js : List Issue) :
    ∀ (acc : List (String × List Issue)),
    (acc.map Prod.fst).Nodup → ((js.foldl add_issue acc).map Prod.fst).Nodup := by
  induction js with
  | nil => intro acc h; simpa using h
  | cons j js ih =>
      intro acc h
      simp only [List.foldl_cons]
      apply ih
      rw [add_issue, map_fst_setdefault_append]
      by_cases hmem : j.issuetype ∈ acc.map Prod.fst
      · simpa [hmem] using h
      · simp only [hmem, if_false]
        rw [List.nodup_append]
        exact ⟨h, List.nodup_singleton _, by
          intro a ha hb
          simp only [List.mem_singleton] at hb
          exact hmem (hb ▸ ha)⟩

/-- The accumulated dict of the loop, sorted at the end, is exactly the
spec-side grouping of the processed issues. -/
theorem sort_foldl_eq_grouped_spec (js : List Issue) :
    sort_issues_by_type (js.foldl add_issue []) = grouped_spec js := by
  unfold sort_issues_by_type grouped_spec
  have hnodup1 : ((js.foldl add_issue []).map Prod.fst).Nodup :=
    foldl_add_issue_nodup js [] (by simp)
  have hnodup2 : (js.map Issue.issuetype).dedup.Nodup := List.nodup_dedup _
  have hmemiff : ∀ t, t ∈ (js.foldl add_issue []).map Prod.fst
      ↔ t ∈ (js.map Issue.issuetype).dedup := by
    intro t
    rw [List.mem_dedup, foldl_add_issue_mem_keys js [] t]
    simp [lookup_type]
  have hperm : ((js.foldl add_issue []).map Prod.fst).Perm
      (js.map Issue.issuetype).dedup := by
    apply List.perm_of_nodup_nodup_toFinset_eq hnodup1 hnodup2
    ext t
    simp only [List.mem_toFinset]
    exact hmemiff t
  have hkeys : List.insertionSort strLe ((js.foldl add_issue []).map Prod.fst)
      = List.insertionSort strLe (js.map Issue.issuetype).dedup := by
    refine List.eq_of_perm_of_sorted
      (((List.perm_insertionSort strLe _).trans hperm).trans
        (List.perm_insertionSort strLe _).symm)
      (List.sorted_insertionSort strLe _)
      (List.sorted_insertionSort strLe _)
  rw [hkeys]
  apply List.map_congr_left
  intro t _
  have := foldl_add_issue_lookup js [] t
  simp only [lookup_type, Option.getD_none, List.nil_append] at this
  rw [this]

end ReleaseIssues

namespace ReleaseIssues

/-- One good page per request: under a non-empty credential, running the loop
against non-empty 200 pages followed by an empty 200 page accumulates every
issue in arrival order and requests offsets growing by the page sizes. -/
lemma get_issues_loop_spec (token project version : String) (htok : token ≠ "") :
    ∀ (prior : List (List Issue)), (∀ is ∈ prior, is ≠ []) →
    ∀ (rest : List HttpResponse) (start_at : Nat)
      (acc : List (String × List Issue)),
    get_issues_loop token project version start_at acc
        (prior.map okPage ++ okPage [] :: rest)
      = (Except.ok (prior.flatten.foldl add_issue acc),
         (List.scanl (· + ·) start_at (prior.map List.length)).map
           (JQL_ISSUE_URL project version)) := by
  intro prior
  induction prior with
  | nil =>
      intro _ rest start_at acc
      simp [get_issues_loop, htok, okPage]
  | cons is prior ih =>
      intro hne rest start_at acc
      have hne0 : is ≠ [] := hne is (by simp)
      have hne' : ∀ l ∈ prior, l ≠ [] := fun l hl => hne l (by simp [hl])
      simp only [List.map_cons, List.cons_append, List.flatten_cons,
        List.foldl_append, List.scanl_cons]
      rw [get_issues_loop]
      have ihu := ih hne' rest (start_at + is.length) (is.foldl add_issue acc)
      simp only [okPage] at ihu ⊢
      simp [htok, List.isEmpty_iff, hne0, ihu]

end ReleaseIssues

namespace ReleaseIssues

/-- C1: for every sequence of paginated search responses that ends in an
empty page (non-empty successful pages `prior`, then an empty page, then
arbitrary unconsumed responses), `_get_issues` returns the union of the
issues of all prior pages grouped by issue type name, with the groups
ordered by type name ascending and each group keeping arrival order —
that is, exactly `grouped_spec` of the concatenated pages, whose group
keys are sorted ascending. -/
theorem get_issues_returns_union_grouped_sorted
    (token project version : String) (prior : List (List Issue))
    (rest : List HttpResponse) (htok : token ≠ "")
    (hne : ∀ is ∈ prior, is ≠ []) :
    (_get_issues token project version (prior.map okPage ++ okPage [] :: rest)).fst
        = Except.ok (grouped_spec prior.flatten)
      ∧ List.Sorted strLe ((grouped_spec prior.flatten).map Prod.fst) := by
  constructor
  · unfold _get_issues
    rw [get_issues_loop_spec token project version htok prior hne rest 0 []]
    simp only [Except.map]
    exact congrArg Except.ok (sort_foldl_eq_grouped_spec _)
  · unfold grouped_spec
    rw [List.map_map]
    have hid : (Prod.fst ∘ fun t =>
        (t, prior.flatten.filter (fun i => decide (i.issuetype = t)))) = id := rfl
    rw [hid, List.map_id]
    exact List.sorted_insertionSort strLe _

/-- Witness for C1 at a concrete run: two non-empty pages (a Task and a Bug,
then another Task) followed by the empty page. -/
theorem get_issues_returns_union_grouped_sorted_witness :
    (("user:token" : String) ≠ "")
    ∧ (∀ is ∈ [[Issue.mk "SYNPY-2" "Task" "do the thing",
                Issue.mk "SYNPY-1" "Bug" "fix the thing"],
               [Issue.mk "SYNPY-3" "Task" "other thing"]], is ≠ [])
    ∧ ((_get_issues "user:token" "SYNPY" "py-2.4"
          ([[Issue.mk "SYNPY-2" "Task" "do the thing",
             Issue.mk "SYNPY-1" "Bug" "fix the thing"],
            [Issue.mk "SYNPY-3" "Task" "other thing"]].map okPage
            ++ okPage [] :: [])).fst
          = Except.ok (grouped_spec
              [[Issue.mk "SYNPY-2" "Task" "do the thing",
                Issue.mk "SYNPY-1" "Bug" "fix the thing"],
               [Issue.mk "SYNPY-3" "Task" "other thing"]].flatten)
        ∧ List.Sorted strLe ((grouped_spec
              [[Issue.mk "SYNPY-2" "Task" "do the thing",
                Issue.mk "SYNPY-1" "Bug" "fix the thing"],
               [Issue.mk "SYNPY-3" "Task" "other thing"]].flatten).map Prod.fst)) :=
  ⟨by decide, by decide,
    get_issues_returns_union_grouped_sorted "user:token" "SYNPY" "py-2.4"
      [[Issue.mk "SYNPY-2" "Task" "do the thing",
        Issue.mk "SYNPY-1" "Bug" "fix the thing"],
       [Issue.mk "SYNPY-3" "Task" "other thing"]] []
      (by decide) (by decide)⟩

/-- C7: the first request uses offset 0, each later request's offset is the
previous offset plus the size of the previous page, and requesting stops at
the first empty page — the requested URLs are exactly the partial sums of
the prior page sizes, one request per prior page plus the final request
that saw the empty page. -/
theorem get_issues_pagination_offsets
    (token project version : String) (prior : List (List Issue))
    (rest : List HttpResponse) (htok : token ≠ "")
    (hne : ∀ is ∈ prior, is ≠ []) :
    (_get_issues token project version (prior.map okPage ++ okPage [] :: rest)).snd
        = (List.scanl (· + ·) 0 (prior.map List.length)).map
            (JQL_ISSUE_URL project version)
      ∧ (_get_issues token project version
          (prior.map okPage ++ okPage [] :: rest)).snd.length
          = prior.length + 1 := by
  have h := get_issues_loop_spec token project version htok prior hne rest 0 []
  constructor
  · unfold _get_issues
    rw [h]
  · unfold _get_issues
    rw [h]
    simp [List.length_scanl]

/-- Witness for C7 at a concrete run: pages of sizes 2 and 1 produce
requests at offsets 0, 2 and 3. -/
theorem get_issues_pagination_offsets_witness :
    (("user:token" : String) ≠ "")
    ∧ (∀ is ∈ [[Issue.mk "A-1" "Bug" "x", Issue.mk "A-2" "Task" "y"],
               [Issue.mk "A-3" "Task" "z"]], is ≠ [])
    ∧ ((_get_issues "user:token" "SYNPY" "py-2.4"
          ([[Issue.mk "A-1" "Bug" "x", Issue.mk "A-2" "Task" "y"],
            [Issue.mk "A-3" "Task" "z"]].map okPage ++ okPage [] :: [])).snd
          = (List.scanl (· + ·) 0
              ([[Issue.mk "A-1" "Bug" "x", Issue.mk "A-2" "Task" "y"],
                [Issue.mk "A-3" "Task" "z"]].map List.length)).map
              (JQL_ISSUE_URL "SYNPY" "py-2.4")
        ∧ (_get_issues "user:token" "SYNPY" "py-2.4"
            ([[Issue.mk "A-1" "Bug" "x", Issue.mk "A-2" "Task" "y"],
              [Issue.mk "A-3" "Task" "z"]].map okPage ++ okPage [] :: [])).snd.length
            = 2 + 1) :=
  ⟨by decide, by decide,
    get_issues_pagination_offsets "user:token" "SYNPY" "py-2.4"
      [[Issue.mk "A-1" "Bug" "x", Issue.mk "A-2" "Task" "y"],
       [Issue.mk "A-3" "Task" "z"]] [] (by decide) (by decide)⟩

/-- C4: with the source's placeholder empty credential string, `_get_issues`
raises the authentication `RuntimeError` and the list of issued requests is
empty, whatever the project, version and server behaviour — the failure
happens before any HTTP request is sent. -/
theorem get_issues_auth_precondition (project version : String)
    (pages : List HttpResponse) :
    _get_issues sample_string project version pages
      = (Except.error (FetchError.runtimeError auth_error_message), []) := by
  cases pages <;> simp [_get_issues, get_issues_loop, sample_string, Except.map]

end ReleaseIssues

namespace ReleaseIssues

/-- C3 (amended): for every search response whose HTTP status is not a
success status and whose body is valid JSON, `_get_issues` raises a
`RuntimeError` whose message contains the numeric status code and the
response body text; in particular a 404 response with a JSON body. -/
theorem get_issues_bad_status_error (token project version : String)
    (status : Nat) (text : String) (body : PageBody)
    (rest : List HttpResponse) (htok : token ≠ "")
    (hstatus : ¬ (200 ≤ status ∧ status < 300)) :
    (_get_issues token project version
        ({ status_code := status, text := text, json := some body } :: rest)).fst
        = Except.error (FetchError.runtimeError (jira_fail_message status text))
      ∧ contains_str (jira_fail_message status text) (toString status)
      ∧ contains_str (jira_fail_message status text) text := by
  have hs : status ≠ 200 := by omega
  refine ⟨?_, ?_, ?_⟩
  · simp [_get_issues, get_issues_loop, htok, hs, Except.map]
  · refine ⟨"Failed to get issues from JIRA: ".data, (" " ++ text).data, ?_⟩
    simp [jira_fail_message, String.data_append, List.append_assoc]
  · refine ⟨("Failed to get issues from JIRA: " ++ toString status ++ " ").data,
      [], ?_⟩
    simp [jira_fail_message, String.data_append, List.append_assoc]

/-- Witness for the amended C3 at a concrete 404 whose body is valid JSON. -/
theorem get_issues_bad_status_error_witness :
    (("user:token" : String) ≠ "")
    ∧ ¬ (200 ≤ 404 ∧ 404 < 300)
    ∧ ((_get_issues "user:token" "SYNPY" "py-2.4"
          [{ status_code := 404, text := "no project SYNPY",
             json := some (PageBody.mk []) }]).fst
          = Except.error
              (FetchError.runtimeError (jira_fail_message 404 "no project SYNPY"))
        ∧ contains_str (jira_fail_message 404 "no project SYNPY") (toString 404)
        ∧ contains_str (jira_fail_message 404 "no project SYNPY") "no project SYNPY") :=
  ⟨by decide, by decide,
    get_issues_bad_status_error "user:token" "SYNPY" "py-2.4" 404
      "no project SYNPY" (PageBody.mk []) [] (by decide) (by decide)⟩

/-- Counterexample to C3 as stated: the source parses the body with
`json.loads` before it checks the status code, so a 404 response whose body
is not valid JSON (here the plain text `Not Found`) raises a
`json.JSONDecodeError`, and that error's message contains neither the
status code nor the body text. -/
theorem get_issues_404_nonjson_body :
    (_get_issues "user:token" "SYNPY" "py-2.4"
        [{ status_code := 404, text := "Not Found", json := none }]).fst
        = Except.error FetchError.jsonDecodeError
      ∧ FetchError.message FetchError.jsonDecodeError
          = "Expecting value: line 1 column 1 (char 0)"
      ∧ ¬ contains_str (FetchError.message FetchError.jsonDecodeError) "404"
      ∧ ¬ contains_str (FetchError.message FetchError.jsonDecodeError) "Not Found" :=
  ⟨rfl, rfl, by decide, by decide⟩

end ReleaseIssues

namespace ReleaseIssues

/-- The heading produced by `_pluralize_issue_type`, factored through the
spec-side `title_of`. -/
lemma pluralize_eq_title (issue_type format_type : String) :
    _pluralize_issue_type issue_type format_type
      = if format_type = "md" then "### " ++ title_of issue_type
        else title_of issue_type := by
  unfold _pluralize_issue_type title_of
  by_cases h1 : issue_type = "Bug" <;> by_cases h2 : issue_type = "Story" <;>
    by_cases h3 : format_type = "md" <;> simp [h1, h2, h3]

/-- C5: `_pluralize_issue_type` maps "Bug" to the title "Bug Fixes", "Story"
to "Stories", and every other type to the type with "s" appended; for format
"md" the heading is the title prefixed with "### ", otherwise the bare
title. -/
theorem pluralize_issue_type_correct (issue_type format_type : String) :
    _pluralize_issue_type issue_type format_type
      = if format_type = "md" then "### " ++ title_of issue_type
        else title_of issue_type :=
  pluralize_eq_title issue_type format_type

/-- C6: for format "md" every group heading starts with "### " and no
underline row follows it; for formats "rst" and "github" every group heading
is followed by a row of dashes whose length equals the heading's length. -/
theorem print_issues_heading_underline
    (m : List (String × List Issue)) (tmpl fmt : String) :
    (fmt = "md" →
      print_issues m tmpl fmt
        = m.flatMap (fun g =>
            ("### " ++ title_of g.fst) :: (g.snd.map (issue_line tmpl) ++ [""])))
    ∧ ((fmt = "rst" ∨ fmt = "github") →
      print_issues m tmpl fmt
        = m.flatMap (fun g =>
            title_of g.fst :: dash_row (title_of g.fst).length
              :: (g.snd.map (issue_line tmpl) ++ [""])))
    ∧ (∀ n, (dash_row n).length = n) := by
  refine ⟨?_, ?_, ?_⟩
  · rintro rfl
    unfold print_issues
    simp [pluralize_eq_title]
  · rintro (rfl | rfl) <;> (unfold print_issues; simp [pluralize_eq_title])
  · intro n
    simp [dash_row, String.length]

/-- Witness for C6 at a concrete grouped mapping, once per format family. -/
theorem print_issues_heading_underline_witness :
    (print_issues [("Bug", [Issue.mk "SYNPY-1" "Bug" "fix it"])]
        MARKDOWN_FORMAT "md"
      = [("Bug", [Issue.mk "SYNPY-1" "Bug" "fix it"])].flatMap (fun g =>
          ("### " ++ title_of g.fst)
            :: (g.snd.map (issue_line MARKDOWN_FORMAT) ++ [""])))
    ∧ (print_issues [("Bug", [Issue.mk "SYNPY-1" "Bug" "fix it"])]
        GITHUB_ISSUE_FORMAT "github"
      = [("Bug", [Issue.mk "SYNPY-1" "Bug" "fix it"])].flatMap (fun g =>
          title_of g.fst :: dash_row (title_of g.fst).length
            :: (g.snd.map (issue_line GITHUB_ISSUE_FORMAT) ++ [""]))) :=
  ⟨(print_issues_heading_underline
      [("Bug", [Issue.mk "SYNPY-1" "Bug" "fix it"])] MARKDOWN_FORMAT "md").1 rfl,
   (print_issues_heading_underline
      [("Bug", [Issue.mk "SYNPY-1" "Bug" "fix it"])] GITHUB_ISSUE_FORMAT
      "github").2.1 (Or.inr rfl)⟩

/-- C8: `print_issues` is a pure total function of its inputs — equal inputs
give identical output, and the output is always defined, with one printed
string per heading, per underline (non-"md" only), per issue, and per group
separator. -/
theorem print_issues_deterministic
    (m m' : List (String × List Issue)) (tmpl tmpl' fmt fmt' : String)
    (h1 : m = m') (h2 : tmpl = tmpl') (h3 : fmt = fmt') :
    print_issues m tmpl fmt = print_issues m' tmpl' fmt'
    ∧ (print_issues m tmpl fmt).length
        = (m.map (fun g =>
            2 + (if fmt ≠ "md" then 1 else 0) + g.snd.length)).sum := by
  subst h1
  subst h2
  subst h3
  refine ⟨rfl, ?_⟩
  unfold print_issues
  rw [List.length_flatMap]
  congr 1
  apply List.map_congr_left
  intro g _
  by_cases h : fmt = "md" <;> simp [h, Function.comp] <;> omega

/-- Witness for C8 at concrete equal inputs. -/
theorem print_issues_deterministic_witness :
    (print_issues [("Task", [Issue.mk "SYNPY-9" "Task" "a task"])]
        RST_ISSUE_FORMAT "rst"
      = print_issues [("Task", [Issue.mk "SYNPY-9" "Task" "a task"])]
        RST_ISSUE_FORMAT "rst")
    ∧ (print_issues [("Task", [Issue.mk "SYNPY-9" "Task" "a task"])]
        RST_ISSUE_FORMAT "rst").length
      = ([("Task", [Issue.mk "SYNPY-9" "Task" "a task"])].map
          (fun g => 2 + (if ("rst" : String) ≠ "md" then 1 else 0)
            + g.snd.length)).sum :=
  print_issues_deterministic
    [("Task", [Issue.mk "SYNPY-9" "Task" "a task"])]
    [("Task", [Issue.mk "SYNPY-9" "Task" "a task"])]
    RST_ISSUE_FORMAT RST_ISSUE_FORMAT "rst" "rst" rfl rfl rfl

/-- C9: consecutive group sections are separated by exactly one blank
printed line: between the last issue line of a group and the heading of the
next group the output carries the single separator `""`. -/
theorem print_issues_blank_separator
    (t1 : String) (is1 : List Issue) (li : Issue) (t2 : String)
    (is2 : List Issue) (ms : List (String × List Issue)) (tmpl fmt : String) :
    print_issues ((t1, is1 ++ [li]) :: (t2, is2) :: ms) tmpl fmt
      = (_pluralize_issue_type t1 fmt
          :: ((if fmt ≠ "md" then [dash_row (_pluralize_issue_type t1 fmt).length]
               else [])
              ++ is1.map (issue_line tmpl)))
        ++ [issue_line tmpl li, "", _pluralize_issue_type t2 fmt]
        ++ ((if fmt ≠ "md" then [dash_row (_pluralize_issue_type t2 fmt).length]
             else [])
            ++ is2.map (issue_line tmpl) ++ [""])
        ++ print_issues ms tmpl fmt := by
  unfold print_issues
  simp [List.flatMap_cons, List.map_append, List.append_assoc]

/-- C10: the "github" and "md" issue templates are the identical string, so
per-issue lines agree between the two outputs; the outputs differ only in
the heading style ("### " prefix and no dash underline for "md"). -/
theorem github_md_formats_agree :
    GITHUB_ISSUE_FORMAT = MARKDOWN_FORMAT
    ∧ ∀ (m : List (String × List Issue)),
        print_issues m MARKDOWN_FORMAT "md"
          = m.flatMap (fun g =>
              ("### " ++ title_of g.fst)
                :: (g.snd.map (issue_line GITHUB_ISSUE_FORMAT) ++ [""]))
        ∧ print_issues m GITHUB_ISSUE_FORMAT "github"
          = m.flatMap (fun g =>
              title_of g.fst :: dash_row (title_of g.fst).length
                :: (g.snd.map (issue_line GITHUB_ISSUE_FORMAT) ++ [""])) := by
  refine ⟨rfl, fun m => ⟨?_, ?_⟩⟩
  · rw [show MARKDOWN_FORMAT = GITHUB_ISSUE_FORMAT from rfl]
    unfold print_issues
    simp [pluralize_eq_title]
  · unfold print_issues
    simp [pluralize_eq_title]

end ReleaseIssues

namespace AnnotationsApi

/-- C2: for every annotation record with id, etag and annotations filled in,
`set_annotations` issues exactly one PUT — instantiating the client with a
request logger yields a one-element log — whose URI is the record's
annotations2 endpoint and whose JSON body holds exactly the keys "id" (the
record's id), "etag" (the record's etag) and "annotations" (the result of
the external conversion helper on the record's annotations mapping); and for
every client it returns that client's parsed response to that request,
forwarding the optional trace context unchanged. -/
theorem set_annotations_single_put {α β σ : Type}
    (a : Annotations α) (convert : α → β) (ctx : Option σ) :
    set_annotations a convert (fun uri body c => [(uri, body, c)]) ctx
        = [("/entity/" ++ a.id ++ "/annotations2",
            [("id", JsonValue.str a.id),
             ("etag", JsonValue.str a.etag),
             ("annotations", JsonValue.obj (convert a.annotations))],
            ctx)]
      ∧ ([(("id" : String), JsonValue.str (β := β) a.id),
          ("etag", JsonValue.str a.etag),
          ("annotations", JsonValue.obj (convert a.annotations))].map Prod.fst
          = ["id", "etag", "annotations"])
      ∧ ∀ (ρ : Type) (restPUT : String → List (String × JsonValue β) → Option σ → ρ),
          set_annotations a convert restPUT ctx
            = restPUT ("/entity/" ++ a.id ++ "/annotations2")
                [("id", JsonValue.str a.id),
                 ("etag", JsonValue.str a.etag),
                 ("annotations", JsonValue.obj (convert a.annotations))]
                ctx :=
  ⟨rfl, rfl, fun _ _ => rfl⟩

end AnnotationsApi
